import Mathlib

/-!
Verification development for the Majikah majik-api credential entity
(src/majik-api.ts, src/types.ts and the utils module).

Modelling conventions for the shallow embedding:

* JavaScript strings are Lean `String`; `String.trimJS` models `trim()`.
* `Date` values and ISO-8601 date strings are both modelled by their
  millisecond time value, an `Int`.  A valid `Date` and its `toISOString`
  round-trip through `new Date(iso)` preserving the time value, so the
  serialised form is identified with the parsed value; `isValidISODate`
  is therefore trivially satisfied on representable inputs.
* Thrown exceptions are modelled with an explicit error kind.  Mutating
  methods on the entity become functions returning the thrown-or-ok
  outcome together with the (possibly updated) instance, so that a
  method that mutated before throwing would be observably non-atomic.
* `metadata` values have type `unknown` in the source; the claims never
  inspect them, so they are modelled as strings.
* The hash primitive (a standard SHA-256 digest, declared out of scope
  by the spec as a black-box deterministic one-way function) is
  modelled as an injective tagging function, the usual collision-free
  idealisation.
* The random identifier generator is modelled by passing the generated
  token as an explicit argument to the operation that consumes it.
-/

deriving instance DecidableEq for Except

/-- Error kinds corresponding to the exception classes thrown by the
source: TypeError, RangeError and plain Error. -/
inductive Err
  | typeError
  | rangeError
  | genericError
deriving DecidableEq, Repr

/-- types.ts: RateLimitFrequency. -/
inductive RateLimitFrequency
  | seconds
  | minutes
  | hours
deriving DecidableEq, Repr

/-- types.ts: QuotaFrequency. -/
inductive QuotaFrequency
  | hours
  | days
  | weeks
  | months
  | quarters
  | years
deriving DecidableEq, Repr

/-- types.ts: the non-null alternatives of Quota; the `null` case is
`Option.none` at the use site. -/
inductive Quota
  | fixed (limit : Int)
  | periodic (limit : Int) (frequency : QuotaFrequency)
deriving DecidableEq, Repr

/-- types.ts: RateLimit. -/
structure RateLimit where
  amount : Int
  frequency : RateLimitFrequency
deriving DecidableEq, Repr

/-- types.ts: IPWhitelist. -/
structure IPWhitelist where
  enabled : Bool
  addresses : List String
deriving DecidableEq, Repr

/-- types.ts: DomainWhitelist. -/
structure DomainWhitelist where
  enabled : Bool
  domains : List String
deriving DecidableEq, Repr

/-- types.ts: MajikAPISettings, as it exists on a constructed entity.
Both construction paths run buildDefaultSettings, so the optional
fields allowedMethods and metadata are always populated. -/
structure MajikAPISettings where
  rateLimit : RateLimit
  quota : Option Quota
  ipWhitelist : IPWhitelist
  domainWhitelist : DomainWhitelist
  allowedMethods : List String
  metadata : List (String × String)
deriving DecidableEq, Repr

/-- A shallow-partial MajikAPISettings, the shape accepted by
buildDefaultSettings (TypeScript Partial is shallow: each top-level
field is present in full or absent). -/
structure SettingsOverrides where
  rateLimit : Option RateLimit
  quota : Option Quota
  ipWhitelist : Option IPWhitelist
  domainWhitelist : Option DomainWhitelist
  allowedMethods : Option (List String)
  metadata : Option (List (String × String))
deriving DecidableEq, Repr

/-- The empty overrides object (create with no settings option). -/
def noOverrides : SettingsOverrides :=
  { rateLimit := none, quota := none, ipWhitelist := none,
    domainWhitelist := none, allowedMethods := none, metadata := none }

/-- Modelled from the spec: the constants module (DEFAULT_RATE_LIMIT,
MAX_RATE_LIMIT, TO_MINUTES) is imported by majik-api.ts but its source
file is not in the repository snapshot.  The spec fixes the default
rate limit at 100 requests per minute. -/
def DEFAULT_RATE_LIMIT : RateLimit :=
  { amount := 100, frequency := RateLimitFrequency.minutes }

/-- Modelled from the spec: the system ceiling is a fixed 500 requests
per minute. -/
def MAX_RATE_LIMIT : RateLimit :=
  { amount := 500, frequency := RateLimitFrequency.minutes }

/-- Modelled from the spec: multipliers normalising a per-frequency
request count to requests per minute.  The spec worked examples fix
them (10 per second normalises to 600 per minute, 1000 per minute to
1000), so seconds scale by 60, minutes by 1 and hours by 1/60. -/
def TO_MINUTES : RateLimitFrequency → ℚ
  | RateLimitFrequency.seconds => 60
  | RateLimitFrequency.minutes => 1
  | RateLimitFrequency.hours => 1 / 60

/-- Numerator of the TO_MINUTES multiplier. -/
def toMinutesNum : RateLimitFrequency → Int
  | RateLimitFrequency.seconds => 60
  | RateLimitFrequency.minutes => 1
  | RateLimitFrequency.hours => 1

/-- Denominator of the TO_MINUTES multiplier. -/
def toMinutesDen : RateLimitFrequency → Int
  | RateLimitFrequency.seconds => 1
  | RateLimitFrequency.minutes => 1
  | RateLimitFrequency.hours => 60

/-- The comparison incomingRpm > ceilingRpm from setRateLimit, carried
out exactly by cross-multiplying the two normalised rates (the source
compares the two products as numbers; on the integer inputs exercised
by its own examples the floating computation is exact and agrees with
the rational value). -/
def rpmGtB (a1 : Int) (f1 : RateLimitFrequency) (a2 : Int) (f2 : RateLimitFrequency) : Bool :=
  decide (a1 * toMinutesNum f1 * toMinutesDen f2 > a2 * toMinutesNum f2 * toMinutesDen f1)

-- ── utils: validation helpers ─────────────────────────────────────────

/-- The whitespace characters relevant to the inputs modelled here;
JavaScript trim() removes them from both ends. -/
def isWSChar (c : Char) : Bool :=
  c == ' ' || c == '\t' || c == '\n' || c == '\r'

/-- JavaScript trim(), as a structurally recursive function (the
built-in String.trim of the proof assistant does not reduce inside the
kernel). -/
def String.trimJS (s : String) : String :=
  String.mk (((s.data.dropWhile isWSChar).reverse.dropWhile isWSChar).reverse)

/-- JavaScript split(sep) for a one-character separator, on character
lists: splitting the empty string yields one empty component, and a
trailing separator yields a trailing empty component. -/
def splitCharList (sep : Char) : List Char → List (List Char)
  | [] => [[]]
  | c :: rest =>
      match splitCharList sep rest with
      | [] => [[]]
      | h :: t => if c == sep then [] :: h :: t else (c :: h) :: t

/-- JavaScript split(sep) on strings. -/
def String.splitChar (s : String) (sep : Char) : List String :=
  (splitCharList sep s.data).map String.mk

/-- JavaScript toUpperCase() on the ASCII inputs relevant here. -/
def String.upperJS (s : String) : String :=
  String.mk (s.data.map Char.toUpper)

/-- utils assertString: non-empty after trimming (typing makes the
typeof check vacuous). -/
def assertStringOK (value : String) : Bool :=
  !(value.trimJS == "")

/-- Decimal value of a digit run. -/
def digitsToNat (cs : List Char) : Nat :=
  cs.foldl (fun a c => a * 10 + (c.toNat - 48)) 0

/-- One octet of the IPv4 dotted quad: 1 to 3 digits whose decimal
value is at most 255 (the parseInt bound from isValidIPv4). -/
def isOctet (p : String) : Bool :=
  decide (1 ≤ p.length) && decide (p.length ≤ 3) &&
    p.data.all Char.isDigit && decide (digitsToNat p.data ≤ 255)

/-- utils isValidIPv4: the anchored regex demands exactly four groups
of 1-3 digits separated by dots, and every octet parses to at most
255. -/
def isValidIPv4 (ip : String) : Bool :=
  let parts := ip.splitChar '.'
  decide (parts.length = 4) && parts.all isOctet

/-- Characters admitted by the isValidIPv6 regex class. -/
def isHexOrColon (c : Char) : Bool :=
  c.isDigit || (decide ('a' ≤ c) && decide (c ≤ 'f')) ||
    (decide ('A' ≤ c) && decide (c ≤ 'F')) || c == ':'

/-- utils isValidIPv6: non-empty, only hex digits and colons, and at
least one colon. -/
def isValidIPv6 (ip : String) : Bool :=
  decide (ip ≠ "") && ip.data.all isHexOrColon && ip.data.any (· == ':')

/-- JavaScript parseInt with default radix on the inputs that matter
here: skip leading spaces, optional sign, then the longest leading
digit run; no digits means NaN (`none`).  Trailing garbage is ignored,
exactly as parseInt does. -/
def parseIntJS (s : String) : Option Int :=
  let cs := s.data.dropWhile (fun c => c == ' ' || c == '\t' || c == '\n')
  let core : List Char → Option Int := fun l =>
    let ds := l.takeWhile Char.isDigit
    if ds.isEmpty then none else some (Int.ofNat (digitsToNat ds))
  match cs with
  | '-' :: rest => (core rest).map (fun n => -n)
  | '+' :: rest => core rest
  | _ => core cs

/-- utils isValidCIDR: destructure the first two components of
split("/"); an absent or empty second component fails; the parsed
numeric part must fit the IPv4 or IPv6 bounds. -/
def isValidCIDR (cidr : String) : Bool :=
  let parts := cidr.splitChar '/'
  let ip := parts.getD 0 ""
  let pfx := parts.getD 1 ""
  if pfx == "" then false
  else
    match parseIntJS pfx with
    | none => false
    | some p =>
        (isValidIPv4 ip && decide (0 ≤ p) && decide (p ≤ 32)) ||
          (isValidIPv6 ip && decide (0 ≤ p) && decide (p ≤ 128))

/-- utils validateIP acceptance: IPv4, IPv6 or CIDR. -/
def isValidIPAddr (ip : String) : Bool :=
  isValidIPv4 ip || isValidIPv6 ip || isValidCIDR ip

/-- ASCII alphanumeric. -/
def isAlnumChar (c : Char) : Bool :=
  c.isDigit || c.isAlpha

/-- First label of the domain regex: one alphanumeric character,
optionally followed by up to 61 alphanumeric-or-hyphen characters and
a final alphanumeric character. -/
def isFirstLabel (l : String) : Bool :=
  match l.data with
  | [] => false
  | c :: rest =>
      isAlnumChar c &&
        (rest.isEmpty ||
          (decide (rest.length ≤ 62) &&
            rest.dropLast.all (fun d => isAlnumChar d || d == '-') &&
            (rest.getLast?.elim false isAlnumChar)))

/-- Trailing labels of the domain regex: at least two alphabetic
characters. -/
def isTailLabel (l : String) : Bool :=
  decide (2 ≤ l.length) && l.data.all Char.isAlpha

/-- utils isValidDomain: the bare wildcard, or an optional leading
wildcard label followed by a first label and one or more dot-separated
alphabetic labels. -/
def isValidDomain (domain : String) : Bool :=
  if domain == "*" then true
  else
    let rest :=
      match domain.data with
      | '*' :: '.' :: r => String.mk r
      | _ => domain
    match rest.splitChar '.' with
    | [] => false
    | first :: tls =>
        isFirstLabel first && decide (1 ≤ tls.length) && tls.all isTailLabel

/-- The sha256 helper from utils.  The digest primitive itself is an
external black box per the spec; it is modelled as an injective
tagging function (the collision-free idealisation of SHA-256), which
keeps it deterministic and one-to-one. -/
def sha256 (input : String) : String :=
  "#" ++ input

/-- utils buildDefaultSettings: defaults merged with shallow
overrides; an absent-or-null quota becomes null. -/
def buildDefaultSettings (o : SettingsOverrides) : MajikAPISettings :=
  { rateLimit := o.rateLimit.getD DEFAULT_RATE_LIMIT,
    ipWhitelist := o.ipWhitelist.getD { enabled := false, addresses := [] },
    domainWhitelist := o.domainWhitelist.getD { enabled := false, domains := [] },
    allowedMethods := o.allowedMethods.getD [],
    metadata := o.metadata.getD [],
    quota := o.quota }

-- ── The entity state ──────────────────────────────────────────────────

/-- The private fields of the MajikAPI class.  `_raw_api_key` is
`none` exactly when the TypeScript field is undefined; `_timestamp`
and `_valid_until` hold millisecond time values. -/
structure MajikAPI where
  _id : String
  _owner_id : String
  _name : String
  _api_key : String
  _raw_api_key : Option String
  _timestamp : Int
  _restricted : Bool
  _valid_until : Option Int
  _settings : MajikAPISettings
deriving DecidableEq, Repr

/-- types.ts MajikAPIJSON, the serialised shape.  There is no raw key
field; the is_valid convenience flag is never read by fromJSON nor
written by toJSON and is omitted.  fromJSON feeds the settings member
through buildDefaultSettings as a shallow partial, so the wire form
carries SettingsOverrides. -/
structure MajikAPIJSON where
  id : String
  owner_id : String
  name : String
  api_key : String
  timestamp : Int
  restricted : Bool
  valid_until : Option Int
  settings : SettingsOverrides
deriving DecidableEq, Repr

/-- MajikAPI.validateSettings.  The typeof / boolean / string-array
assertions are vacuous under typing; the checks with observable
outcomes are the positive rate-limit amount (RangeError) and the
per-entry IP and domain validation (plain Error), in source order.
Entries are validated exactly as stored, without trimming. -/
def validateSettings (st : MajikAPISettings) : Except Err Unit :=
  if st.rateLimit.amount < 1 then Except.error Err.rangeError
  else if !(st.ipWhitelist.addresses.all isValidIPAddr) then Except.error Err.genericError
  else if !(st.domainWhitelist.domains.all isValidDomain) then Except.error Err.genericError
  else Except.ok ()

/-- The shared raw-key resolution of create() and rotate(): supplied
text must be non-empty after trimming and is stored trimmed, otherwise
the freshly generated identifier is used as is. -/
def resolveRawKey (text : Option String) (generated : String) : Except Err String :=
  match text with
  | some t => if t.trimJS = "" then Except.error Err.typeError else Except.ok t.trimJS
  | none => Except.ok generated

/-- MajikAPICreateOptions. -/
structure MajikAPICreateOptions where
  name : Option String
  restricted : Option Bool
  valid_until : Option Int
  settings : SettingsOverrides
deriving Repr

/-- create() with every option defaulted. -/
def defaultCreateOptions : MajikAPICreateOptions :=
  { name := none, restricted := none, valid_until := none, settings := noOverrides }

/-- MajikAPI.create.  `genId` and `genKey` are the tokens produced by
the random identifier source for the id and (when no text is given)
the raw key; `now` is the current time.  An undefined and a null
valid_until option are both treated as no expiry, as in the source. -/
def create (ownerID : String) (text : Option String)
    (options : MajikAPICreateOptions) (genId genKey : String) (now : Int) :
    Except Err MajikAPI :=
  if ownerID.trimJS = "" then Except.error Err.typeError
  else
    match resolveRawKey text genKey with
    | Except.error e => Except.error e
    | Except.ok rawKey =>
        let name := options.name.getD "Unnamed Key"
        if name.trimJS = "" then Except.error Err.typeError
        else
          let restricted := options.restricted.getD false
          match options.valid_until with
          | some d =>
              if d ≤ now then Except.error Err.rangeError
              else
                let st := buildDefaultSettings options.settings
                match validateSettings st with
                | Except.error e => Except.error e
                | Except.ok _ =>
                    Except.ok
                      { _id := genId, _owner_id := ownerID.trimJS, _name := name.trimJS,
                        _api_key := sha256 rawKey, _raw_api_key := some rawKey,
                        _timestamp := now, _restricted := restricted,
                        _valid_until := some d, _settings := st }
          | none =>
              let st := buildDefaultSettings options.settings
              match validateSettings st with
              | Except.error e => Except.error e
              | Except.ok _ =>
                  Except.ok
                    { _id := genId, _owner_id := ownerID.trimJS, _name := name.trimJS,
                      _api_key := sha256 rawKey, _raw_api_key := some rawKey,
                      _timestamp := now, _restricted := restricted,
                      _valid_until := none, _settings := st }

/-- MajikAPI.fromJSON.  Every string field must be non-empty after
trimming; ISO-date well-formedness is inherent to the date model; the
settings member is rebuilt through buildDefaultSettings and validated;
the raw key is never restored. -/
def fromJSON (data : MajikAPIJSON) : Except Err MajikAPI :=
  if data.id.trimJS = "" then Except.error Err.typeError
  else if data.owner_id.trimJS = "" then Except.error Err.typeError
  else if data.name.trimJS = "" then Except.error Err.typeError
  else if data.api_key.trimJS = "" then Except.error Err.typeError
  else
    let st := buildDefaultSettings data.settings
    match validateSettings st with
    | Except.error e => Except.error e
    | Except.ok _ =>
        Except.ok
          { _id := data.id, _owner_id := data.owner_id, _name := data.name,
            _api_key := data.api_key, _raw_api_key := none,
            _timestamp := data.timestamp, _restricted := data.restricted,
            _valid_until := data.valid_until, _settings := st }

/-- Projection of a full settings value back to the wire overrides, as
toJSON emits it (structuredClone is the identity on pure values; every
field is present). -/
def overridesOfSettings (st : MajikAPISettings) : SettingsOverrides :=
  { rateLimit := some st.rateLimit, quota := st.quota,
    ipWhitelist := some st.ipWhitelist, domainWhitelist := some st.domainWhitelist,
    allowedMethods := some st.allowedMethods, metadata := some st.metadata }

/-- MajikAPI.toJSON: the plain serialisable projection; the raw key
has no counterpart in the output shape. -/
def toJSON (s : MajikAPI) : MajikAPIJSON :=
  { id := s._id, owner_id := s._owner_id, name := s._name,
    api_key := s._api_key, timestamp := s._timestamp,
    restricted := s._restricted, valid_until := s._valid_until,
    settings := overridesOfSettings s._settings }

/-- MajikAPI.verify: reject input that is empty after trimming, else
hash the trimmed input and compare with the stored hash. -/
def verify (s : MajikAPI) (text : String) : Except Err Bool :=
  if text.trimJS = "" then Except.error Err.typeError
  else Except.ok (sha256 text.trimJS == s._api_key)

/-- MajikAPI.isExpired at current time `now`. -/
def isExpired (s : MajikAPI) (now : Int) : Bool :=
  match s._valid_until with
  | none => false
  | some v => decide (now > v)

/-- The status getter codomain. -/
inductive Status
  | active
  | restricted
  | expired
  | revoked
deriving DecidableEq, Repr

/-- The status getter: the epoch comparison in the source is
valid_until present with time value 0. -/
def status (s : MajikAPI) (now : Int) : Status :=
  if s._valid_until = some 0 then Status.revoked
  else if isExpired s now then Status.expired
  else if s._restricted then Status.restricted
  else Status.active

-- ── Public mutators as a step machine ─────────────────────────────────

/-- One call to a public mutating method, with the arguments the call
received.  rotate carries the token the random source would produce
when no text is supplied; setExpiry carries the current time the
source reads through new Date(). -/
inductive Step
  | rotate (text : Option String) (generated : String)
  | rename (name : String)
  | setExpiry (date : Option Int) (now : Int)
  | restrict
  | unrestrict
  | revoke
  | setRateLimit (amount : Int) (frequency : RateLimitFrequency) (bypassSafeLimit : Bool)
  | resetRateLimit
  | enableIPWhitelist
  | disableIPWhitelist
  | addIP (ip : String)
  | removeIP (ip : String)
  | setIPWhitelist (addresses : List String)
  | clearIPWhitelist
  | enableDomainWhitelist
  | disableDomainWhitelist
  | addDomain (domain : String)
  | removeDomain (domain : String)
  | setDomainWhitelist (domains : List String)
  | clearDomainWhitelist
  | setAllowedMethods (methods : List String)
  | clearAllowedMethods
  | setMetadata (key value : String)
  | deleteMetadata (key : String)
  | clearMetadata
deriving DecidableEq, Repr

/-- The HTTP verbs accepted by setAllowedMethods. -/
def validMethods : List String :=
  ["GET", "POST", "PUT", "PATCH", "DELETE", "HEAD", "OPTIONS"]

/-- Object-style assignment into the metadata record: replace the
value under an existing key, otherwise append the new binding. -/
def metaSet (m : List (String × String)) (key value : String) :
    List (String × String) :=
  if m.any (fun p => p.1 == key) then
    m.map (fun p => if p.1 == key then (key, value) else p)
  else m ++ [(key, value)]

/-- The requested rate normalised to requests per minute. -/
def rpmOf (amount : Int) (frequency : RateLimitFrequency) : ℚ :=
  (amount : ℚ) * TO_MINUTES frequency

/-- Execute one public method call: the thrown-or-ok outcome paired
with the instance afterwards.  Each branch is the statement-by-
statement translation of the corresponding method; every validation
the source performs before its first assignment appears before the
state update here, and an error branch returns the state it was
handed. -/
def runStep (st : Step) (s : MajikAPI) : Except Err Unit × MajikAPI :=
  match st with
  | Step.rotate text generated =>
      match resolveRawKey text generated with
      | Except.error e => (Except.error e, s)
      | Except.ok rawKey =>
          (Except.ok (), { s with _api_key := sha256 rawKey, _raw_api_key := some rawKey })
  | Step.rename n =>
      if n.trimJS = "" then (Except.error Err.typeError, s)
      else (Except.ok (), { s with _name := n.trimJS })
  | Step.setExpiry date now =>
      match date with
      | none => (Except.ok (), { s with _valid_until := none })
      | some d =>
          if d ≤ now then (Except.error Err.rangeError, s)
          else (Except.ok (), { s with _valid_until := some d })
  | Step.restrict => (Except.ok (), { s with _restricted := true })
  | Step.unrestrict => (Except.ok (), { s with _restricted := false })
  | Step.revoke => (Except.ok (), { s with _valid_until := some 0, _restricted := true })
  | Step.setRateLimit amount frequency bypassSafeLimit =>
      if amount < 1 then (Except.error Err.rangeError, s)
      else if !bypassSafeLimit &&
          rpmGtB amount frequency MAX_RATE_LIMIT.amount MAX_RATE_LIMIT.frequency then
        (Except.error Err.rangeError, s)
      else
        (Except.ok (),
          { s with _settings := { s._settings with rateLimit := { amount := amount, frequency := frequency } } })
  | Step.resetRateLimit =>
      (Except.ok (), { s with _settings := { s._settings with rateLimit := DEFAULT_RATE_LIMIT } })
  | Step.enableIPWhitelist =>
      (Except.ok (),
        { s with _settings := { s._settings with
            ipWhitelist := { s._settings.ipWhitelist with enabled := true } } })
  | Step.disableIPWhitelist =>
      (Except.ok (),
        { s with _settings := { s._settings with
            ipWhitelist := { s._settings.ipWhitelist with enabled := false } } })
  | Step.addIP ip =>
      if ip.trimJS = "" then (Except.error Err.typeError, s)
      else if !(isValidIPAddr ip.trimJS) then (Except.error Err.genericError, s)
      else if s._settings.ipWhitelist.addresses.contains ip.trimJS then (Except.ok (), s)
      else
        (Except.ok (),
          { s with _settings := { s._settings with
              ipWhitelist := { s._settings.ipWhitelist with
                addresses := s._settings.ipWhitelist.addresses ++ [ip.trimJS] } } })
  | Step.removeIP ip =>
      if ip.trimJS = "" then (Except.error Err.typeError, s)
      else
        (Except.ok (),
          { s with _settings := { s._settings with
              ipWhitelist := { s._settings.ipWhitelist with
                addresses := s._settings.ipWhitelist.addresses.filter (fun a => a != ip.trimJS) } } })
  | Step.setIPWhitelist addresses =>
      if !(addresses.all (fun ip => isValidIPAddr ip.trimJS)) then
        (Except.error Err.genericError, s)
      else
        (Except.ok (),
          { s with _settings := { s._settings with
              ipWhitelist := { s._settings.ipWhitelist with
                addresses := addresses.map (fun ip => ip.trimJS) } } })
  | Step.clearIPWhitelist =>
      (Except.ok (),
        { s with _settings := { s._settings with
            ipWhitelist := { s._settings.ipWhitelist with addresses := [] } } })
  | Step.enableDomainWhitelist =>
      (Except.ok (),
        { s with _settings := { s._settings with
            domainWhitelist := { s._settings.domainWhitelist with enabled := true } } })
  | Step.disableDomainWhitelist =>
      (Except.ok (),
        { s with _settings := { s._settings with
            domainWhitelist := { s._settings.domainWhitelist with enabled := false } } })
  | Step.addDomain domain =>
      if domain.trimJS = "" then (Except.error Err.typeError, s)
      else if !(isValidDomain domain.trimJS) then (Except.error Err.genericError, s)
      else if s._settings.domainWhitelist.domains.contains domain.trimJS then (Except.ok (), s)
      else
        (Except.ok (),
          { s with _settings := { s._settings with
              domainWhitelist := { s._settings.domainWhitelist with
                domains := s._settings.domainWhitelist.domains ++ [domain.trimJS] } } })
  | Step.removeDomain domain =>
      if domain.trimJS = "" then (Except.error Err.typeError, s)
      else
        (Except.ok (),
          { s with _settings := { s._settings with
              domainWhitelist := { s._settings.domainWhitelist with
                domains := s._settings.domainWhitelist.domains.filter (fun d => d != domain.trimJS) } } })
  | Step.setDomainWhitelist domains =>
      if !(domains.all (fun d => isValidDomain d.trimJS)) then
        (Except.error Err.genericError, s)
      else
        (Except.ok (),
          { s with _settings := { s._settings with
              domainWhitelist := { s._settings.domainWhitelist with
                domains := domains.map (fun d => d.trimJS) } } })
  | Step.clearDomainWhitelist =>
      (Except.ok (),
        { s with _settings := { s._settings with
            domainWhitelist := { s._settings.domainWhitelist with domains := [] } } })
  | Step.setAllowedMethods methods =>
      if !(methods.all (fun m => validMethods.contains m.upperJS)) then
        (Except.error Err.genericError, s)
      else
        (Except.ok (),
          { s with _settings := { s._settings with
              allowedMethods := methods.map (fun m => m.upperJS) } })
  | Step.clearAllowedMethods =>
      (Except.ok (), { s with _settings := { s._settings with allowedMethods := [] } })
  | Step.setMetadata key value =>
      if key.trimJS = "" then (Except.error Err.typeError, s)
      else
        (Except.ok (),
          { s with _settings := { s._settings with metadata := metaSet s._settings.metadata key value } })
  | Step.deleteMetadata key =>
      if key.trimJS = "" then (Except.error Err.typeError, s)
      else
        (Except.ok (),
          { s with _settings := { s._settings with
              metadata := s._settings.metadata.filter (fun p => p.1 != key) } })
  | Step.clearMetadata =>
      (Except.ok (), { s with _settings := { s._settings with metadata := [] } })

/-- The instance after a call, whether or not the call threw (a throw
leaves the instance as it was, which is what a caller that catches the
exception continues with). -/
def execStep (st : Step) (s : MajikAPI) : MajikAPI :=
  (runStep st s).2

/-- A caller-driven sequence of public method calls. -/
def execSteps (l : List Step) (s : MajikAPI) : MajikAPI :=
  l.foldl (fun s st => execStep st s) s

-- ── Shared concrete instances for witnesses and counterexamples ───────

/-- The settings value produced by buildDefaultSettings with no
overrides. -/
def defaultSettings : MajikAPISettings :=
  { rateLimit := DEFAULT_RATE_LIMIT, quota := none,
    ipWhitelist := { enabled := false, addresses := [] },
    domainWhitelist := { enabled := false, domains := [] },
    allowedMethods := [], metadata := [] }

/-- The instance created by create("owner", "alpha") with generated id
"gid" (and unused generated key token "gkey") at time 0. -/
def baseState : MajikAPI :=
  { _id := "gid", _owner_id := "owner", _name := "Unnamed Key",
    _api_key := sha256 "alpha", _raw_api_key := some "alpha",
    _timestamp := 0, _restricted := false, _valid_until := none,
    _settings := defaultSettings }

/-- A concrete serialised record accepted by fromJSON. -/
def r0 : MajikAPIJSON :=
  { id := "id-1", owner_id := "owner-1", name := "Main Key", api_key := "#alpha",
    timestamp := 0, restricted := false, valid_until := none,
    settings := noOverrides }

/-- The instance fromJSON reconstructs from r0. -/
def x0 : MajikAPI :=
  { _id := "id-1", _owner_id := "owner-1", _name := "Main Key", _api_key := "#alpha",
    _raw_api_key := none, _timestamp := 0, _restricted := false, _valid_until := none,
    _settings := defaultSettings }

-- ── Inversion helpers ─────────────────────────────────────────────────

/-- Characterisation of a successful fromJSON call. -/
theorem fromJSON_ok_iff (data : MajikAPIJSON) (x : MajikAPI) :
    fromJSON data = Except.ok x ↔
      (data.id.trimJS ≠ "" ∧ data.owner_id.trimJS ≠ "" ∧ data.name.trimJS ≠ "" ∧
        data.api_key.trimJS ≠ "" ∧
        validateSettings (buildDefaultSettings data.settings) = Except.ok () ∧
        x = { _id := data.id, _owner_id := data.owner_id, _name := data.name,
              _api_key := data.api_key, _raw_api_key := none,
              _timestamp := data.timestamp, _restricted := data.restricted,
              _valid_until := data.valid_until,
              _settings := buildDefaultSettings data.settings }) := by
  unfold fromJSON
  split_ifs with h1 h2 h3 h4
  · simp [h1]
  · simp [h2]
  · simp [h3]
  · simp [h4]
  · cases hv : validateSettings (buildDefaultSettings data.settings) with
    | error e => simp [hv, h1, h2, h3, h4]
    | ok u =>
        cases u
        simp [hv, h1, h2, h3, h4, eq_comm]

/-- Rebuilding defaults from the full overrides that toJSON emits is
the identity on settings. -/
theorem build_overrides_id (st : MajikAPISettings) :
    buildDefaultSettings (overridesOfSettings st) = st := rfl

-- ── C1 ────────────────────────────────────────────────────────────────

/-- C1: the record returned by toJSON contains no plaintext-secret
field on any code path — formally, the projection is invariant under
arbitrary changes to the transient raw key, so no part of the output
carries it — and every instance reconstructed by fromJSON has an
absent (none) raw plaintext secret. -/
theorem serialization_never_exposes_plaintext :
    (∀ (s : MajikAPI) (v : Option String),
        toJSON { s with _raw_api_key := v } = toJSON s) ∧
    (∀ (data : MajikAPIJSON) (x : MajikAPI),
        fromJSON data = Except.ok x → x._raw_api_key = none) := by
  constructor
  · intro s v
    rfl
  · intro data x h
    rcases (fromJSON_ok_iff data x).mp h with ⟨-, -, -, -, -, hx⟩
    rw [hx]

/-- Witness for C1: the concrete record r0 and the instance it
reconstructs, plus invariance of toJSON at x0. -/
theorem serialization_never_exposes_plaintext_witness :
    toJSON { x0 with _raw_api_key := some "alpha" } = toJSON x0 ∧
      x0._raw_api_key = none :=
  ⟨serialization_never_exposes_plaintext.1 x0 (some "alpha"),
    serialization_never_exposes_plaintext.2 r0 x0 (by decide)⟩

-- ── C2 ────────────────────────────────────────────────────────────────

/-- C2: for every record accepted by fromJSON, the reconstructed
entity round-trips through toJSON and fromJSON to an entity equal in
every field (id, owner, name, secret hash, timestamp, restricted,
valid-until and the whole settings aggregate including rate limit,
whitelists, allowed methods, metadata and quota), and the plaintext
secret is absent on both sides. -/
theorem fromJSON_toJSON_roundtrip (data : MajikAPIJSON) (x : MajikAPI)
    (h : fromJSON data = Except.ok x) :
    fromJSON (toJSON x) = Except.ok x ∧ x._raw_api_key = none := by
  rcases (fromJSON_ok_iff data x).mp h with ⟨h1, h2, h3, h4, hv, hx⟩
  subst hx
  refine ⟨(fromJSON_ok_iff _ _).mpr ⟨h1, h2, h3, h4, ?_, ?_⟩, rfl⟩
  · simpa [toJSON, build_overrides_id] using hv
  · simp [toJSON, build_overrides_id]

/-- Witness for C2 at the concrete record r0. -/
theorem fromJSON_toJSON_roundtrip_witness :
    fromJSON (toJSON x0) = Except.ok x0 ∧ x0._raw_api_key = none :=
  fromJSON_toJSON_roundtrip r0 x0 (by decide)

-- ── C4 ────────────────────────────────────────────────────────────────

/-- The status derivation exactly as the spec words it: revoked when
the expiry equals the epoch sentinel; else expired when an expiry is
set and the current time is past it; else restricted when the manual
flag is set; else active. -/
def statusSpec (s : MajikAPI) (now : Int) : Status :=
  if s._valid_until = some 0 then Status.revoked
  else if s._valid_until.elim false (fun v => decide (now > v)) then Status.expired
  else if s._restricted then Status.restricted
  else Status.active

/-- C4: the status getter agrees with the spec cascade in strict
precedence order at every state and time, and after revoke() the
status is revoked regardless of the prior restricted or valid-until
state and of the current time. -/
theorem status_follows_spec_precedence :
    (∀ (s : MajikAPI) (now : Int), status s now = statusSpec s now) ∧
    (∀ (s : MajikAPI) (now : Int),
        status (execStep Step.revoke s) now = Status.revoked) := by
  constructor
  · intro s now
    cases h : s._valid_until <;> simp [status, statusSpec, isExpired, h]
  · intro s now
    simp [execStep, runStep, status]

-- ── C5 ────────────────────────────────────────────────────────────────

/-- The exact integer guard used in the embedding coincides with
comparing the normalised rational rates against the 500 per minute
ceiling. -/
theorem rpmGtB_iff_rpmOf (a : Int) (f : RateLimitFrequency) :
    rpmGtB a f MAX_RATE_LIMIT.amount MAX_RATE_LIMIT.frequency = true ↔
      rpmOf a f > 500 := by
  cases f
  · simp only [rpmGtB, rpmOf, TO_MINUTES, toMinutesNum, toMinutesDen, MAX_RATE_LIMIT,
      decide_eq_true_eq, gt_iff_lt]
    norm_num
    constructor <;> intro h <;> exact_mod_cast h
  · simp only [rpmGtB, rpmOf, TO_MINUTES, toMinutesNum, toMinutesDen, MAX_RATE_LIMIT,
      decide_eq_true_eq, gt_iff_lt]
    norm_num
    constructor <;> intro h <;> exact_mod_cast h
  · simp only [rpmGtB, rpmOf, TO_MINUTES, toMinutesNum, toMinutesDen, MAX_RATE_LIMIT,
      decide_eq_true_eq, gt_iff_lt]
    norm_num
    rw [mul_one_div, lt_div_iff₀ (by norm_num : (0:ℚ) < 60)]
    norm_num
    constructor <;> intro h <;> exact_mod_cast h

/-- C5: for a positive integer amount, setRateLimit without bypass
throws a range error exactly when the requested rate normalised to
requests per minute exceeds the 500 per minute ceiling, and otherwise
stores the requested pair; with bypass it always succeeds and stores
the requested pair. -/
theorem setRateLimit_ceiling (s : MajikAPI) (amount : Int)
    (frequency : RateLimitFrequency) (h : 1 ≤ amount) :
    ((runStep (Step.setRateLimit amount frequency false) s).1 =
        Except.error Err.rangeError ↔ rpmOf amount frequency > 500) ∧
    (¬ rpmOf amount frequency > 500 →
        runStep (Step.setRateLimit amount frequency false) s =
          (Except.ok (), { s with _settings := { s._settings with
              rateLimit := { amount := amount, frequency := frequency } } })) ∧
    runStep (Step.setRateLimit amount frequency true) s =
      (Except.ok (), { s with _settings := { s._settings with
          rateLimit := { amount := amount, frequency := frequency } } }) := by
  have hn : ¬ amount < 1 := by omega
  refine ⟨?_, ?_, ?_⟩
  · rcases hg : rpmGtB amount frequency MAX_RATE_LIMIT.amount MAX_RATE_LIMIT.frequency with _ | _
    · rw [← rpmGtB_iff_rpmOf, hg]
      simp [runStep, hn, hg]
    · rw [← rpmGtB_iff_rpmOf, hg]
      simp [runStep, hn, hg]
  · intro hle
    rw [← rpmGtB_iff_rpmOf] at hle
    simp only [Bool.not_eq_true] at hle
    simp [runStep, hn, hle]
  · simp [runStep, hn]

/-- Witness for C5 at the worked examples from the spec: 10 per second
(600 per minute) fails, 8 per second (480 per minute) succeeds, 1000
per minute fails without bypass and succeeds with bypass. -/
theorem setRateLimit_ceiling_witness :
    (runStep (Step.setRateLimit 10 RateLimitFrequency.seconds false) baseState).1 =
        Except.error Err.rangeError ∧
    runStep (Step.setRateLimit 8 RateLimitFrequency.seconds false) baseState =
        (Except.ok (), { baseState with _settings := { baseState._settings with
            rateLimit := { amount := 8, frequency := RateLimitFrequency.seconds } } }) ∧
    (runStep (Step.setRateLimit 1000 RateLimitFrequency.minutes false) baseState).1 =
        Except.error Err.rangeError ∧
    runStep (Step.setRateLimit 1000 RateLimitFrequency.minutes true) baseState =
        (Except.ok (), { baseState with _settings := { baseState._settings with
            rateLimit := { amount := 1000, frequency := RateLimitFrequency.minutes } } }) :=
  ⟨(setRateLimit_ceiling baseState 10 RateLimitFrequency.seconds (by norm_num)).1.mpr
      (by norm_num [rpmOf, TO_MINUTES]),
    (setRateLimit_ceiling baseState 8 RateLimitFrequency.seconds (by norm_num)).2.1
      (by norm_num [rpmOf, TO_MINUTES]),
    (setRateLimit_ceiling baseState 1000 RateLimitFrequency.minutes (by norm_num)).1.mpr
      (by norm_num [rpmOf, TO_MINUTES]),
    (setRateLimit_ceiling baseState 1000 RateLimitFrequency.minutes (by norm_num)).2.2⟩

-- ── C8 ────────────────────────────────────────────────────────────────

/-- C8: every public mutator is all-or-nothing — whenever a call
throws, the instance it was invoked on is exactly the instance before
the call, because each method performs all of its input validation
(including per-entry validation of bulk whitelist and method lists)
before its first assignment. -/
theorem mutators_atomic_on_error (st : Step) (s sAfter : MajikAPI) (e : Err)
    (h : runStep st s = (Except.error e, sAfter)) : sAfter = s := by
  cases st <;> simp only [runStep] at h <;> (repeat' split at h) <;> simp_all

/-- Witness for C8: a bulk IP whitelist replacement containing one
malformed entry throws and leaves the previously stored list (and the
whole instance) intact. -/
theorem mutators_atomic_on_error_witness :
    (runStep (Step.setIPWhitelist ["1.2.3.4", "999.1.1.1"]) baseState).2 = baseState :=
  mutators_atomic_on_error (Step.setIPWhitelist ["1.2.3.4", "999.1.1.1"]) baseState
    (runStep (Step.setIPWhitelist ["1.2.3.4", "999.1.1.1"]) baseState).2
    Err.genericError (by decide)

-- ── C6 ────────────────────────────────────────────────────────────────

/-- The revoked instance obtained by calling revoke() on baseState. -/
def sRevoked : MajikAPI :=
  { baseState with _valid_until := some 0, _restricted := true }

/-- The instance after additionally calling setExpiry(null). -/
def sUnrevoked : MajikAPI :=
  { baseState with _valid_until := none, _restricted := true }

/-- Counterexample to C6 as stated: setExpiry(null) is a public method
that clears the epoch sentinel after revoke() — the call succeeds,
valid-until becomes null, and the status is no longer revoked (it is
restricted, since the restricted flag survives). -/
theorem revoke_not_permanent_counterexample :
    execStep Step.revoke baseState = sRevoked ∧
    runStep (Step.setExpiry none 7) sRevoked = (Except.ok (), sUnrevoked) ∧
    sUnrevoked._valid_until = none ∧
    status sUnrevoked 7 = Status.restricted ∧
    ¬ status sUnrevoked 7 = Status.revoked := by decide

/-- Does this step clear or replace the expiry field directly? -/
def isSetExpiry : Step → Bool
  | Step.setExpiry _ _ => true
  | _ => false

/-- Any single public method call other than setExpiry preserves the
epoch sentinel in the expiry field. -/
theorem step_preserves_sentinel (st : Step) (s : MajikAPI)
    (hst : isSetExpiry st = false) (h0 : s._valid_until = some 0) :
    (execStep st s)._valid_until = some 0 := by
  cases st <;> simp_all [execStep, runStep, isSetExpiry] <;>
    (repeat' split) <;> simp_all

/-- C6 amended: after revoke(), the only public method that can clear
or replace the epoch sentinel is setExpiry (which accepts null and
future dates); under every sequence of public method calls that
avoids setExpiry, the sentinel — and with it the revoked status —
persists. -/
theorem revoked_persists_without_setExpiry (l : List Step) (s : MajikAPI)
    (h0 : s._valid_until = some 0)
    (hl : ∀ st ∈ l, isSetExpiry st = false) :
    (execSteps l s)._valid_until = some 0 ∧
      ∀ now, status (execSteps l s) now = Status.revoked := by
  have key : (execSteps l s)._valid_until = some 0 := by
    induction l generalizing s with
    | nil => simpa [execSteps] using h0
    | cons st rest ih =>
        have hst : isSetExpiry st = false := hl st (List.mem_cons_self st rest)
        have hrest : ∀ x ∈ rest, isSetExpiry x = false :=
          fun x hx => hl x (List.mem_cons_of_mem st hx)
        have : execSteps (st :: rest) s = execSteps rest (execStep st s) := rfl
        rw [this]
        exact ih (execStep st s) (step_preserves_sentinel st s hst h0) hrest
  refine ⟨key, fun now => ?_⟩
  simp [status, key]

/-- Witness for C6 amended: a concrete setExpiry-free call sequence on
a revoked instance keeps the sentinel and the revoked status. -/
theorem revoked_persists_without_setExpiry_witness :
    (execSteps [Step.restrict, Step.unrestrict, Step.rotate none "tok",
        Step.rename "renamed", Step.addIP "1.2.3.4", Step.setAllowedMethods ["get"],
        Step.clearMetadata] sRevoked)._valid_until = some 0 ∧
      status (execSteps [Step.restrict, Step.unrestrict, Step.rotate none "tok",
        Step.rename "renamed", Step.addIP "1.2.3.4", Step.setAllowedMethods ["get"],
        Step.clearMetadata] sRevoked) 99 = Status.revoked :=
  ⟨(revoked_persists_without_setExpiry _ sRevoked (by decide) (by decide)).1,
    (revoked_persists_without_setExpiry _ sRevoked (by decide) (by decide)).2 99⟩

-- ── C7 ────────────────────────────────────────────────────────────────

/-- The instance after a bulk IP whitelist replacement with a repeated
entry. -/
def dupState : MajikAPI :=
  { baseState with _settings := { defaultSettings with
      ipWhitelist := { enabled := false, addresses := ["1.2.3.4", "1.2.3.4"] } } }

/-- Counterexample to C7 as stated: from the freshly created instance,
the public bulk setter setIPWhitelist accepts a list with a repeated
valid entry and stores it verbatim, so a reachable state holds a
duplicate in the IP whitelist. -/
theorem whitelist_nodup_counterexample :
    create "owner" (some "alpha") defaultCreateOptions "gid" "gkey" 0 =
        Except.ok baseState ∧
    runStep (Step.setIPWhitelist ["1.2.3.4", "1.2.3.4"]) baseState =
        (Except.ok (), dupState) ∧
    ¬ dupState._settings.ipWhitelist.addresses.Nodup := by decide

/-- Is this step one of the two bulk whitelist replacements (which
store the supplied list as given, without de-duplication)? -/
def isBulkWhitelistSet : Step → Bool
  | Step.setIPWhitelist _ => true
  | Step.setDomainWhitelist _ => true
  | _ => false

/-- Any single public method call other than the two bulk whitelist
replacements preserves duplicate-freedom of both whitelists: addIP
and addDomain insert only when the entry is absent, removals filter,
and nothing else touches the lists. -/
theorem step_preserves_nodup (st : Step) (s : MajikAPI)
    (hst : isBulkWhitelistSet st = false)
    (ha : s._settings.ipWhitelist.addresses.Nodup)
    (hd : s._settings.domainWhitelist.domains.Nodup) :
    (execStep st s)._settings.ipWhitelist.addresses.Nodup ∧
      (execStep st s)._settings.domainWhitelist.domains.Nodup := by
  cases st <;> simp_all [execStep, runStep, isBulkWhitelistSet] <;>
    (repeat' split) <;>
    simp_all [List.nodup_append, List.Nodup.filter]

/-- C7 amended: starting from any state whose whitelists are
duplicate-free (as produced by create with default settings), every
sequence of public method calls avoiding setIPWhitelist and
setDomainWhitelist keeps both whitelists duplicate-free. -/
theorem whitelists_nodup_without_bulk_sets (l : List Step) (s : MajikAPI)
    (hl : ∀ st ∈ l, isBulkWhitelistSet st = false)
    (ha : s._settings.ipWhitelist.addresses.Nodup)
    (hd : s._settings.domainWhitelist.domains.Nodup) :
    (execSteps l s)._settings.ipWhitelist.addresses.Nodup ∧
      (execSteps l s)._settings.domainWhitelist.domains.Nodup := by
  induction l generalizing s with
  | nil => exact ⟨ha, hd⟩
  | cons st rest ih =>
      have hst : isBulkWhitelistSet st = false := hl st (List.mem_cons_self st rest)
      have hrest : ∀ x ∈ rest, isBulkWhitelistSet x = false :=
        fun x hx => hl x (List.mem_cons_of_mem st hx)
      have hstep := step_preserves_nodup st s hst ha hd
      have : execSteps (st :: rest) s = execSteps rest (execStep st s) := rfl
      rw [this]
      exact ih (execStep st s) hrest hstep.1 hstep.2

/-- Witness for C7 amended: a concrete sequence with repeated addIP
and addDomain calls leaves both whitelists duplicate-free. -/
theorem whitelists_nodup_without_bulk_sets_witness :
    (execSteps [Step.addIP "1.2.3.4", Step.addIP "1.2.3.4", Step.addIP "10.0.0.0/24",
        Step.addDomain "*.example.com", Step.addDomain "*.example.com",
        Step.removeIP "1.2.3.4"] baseState)._settings.ipWhitelist.addresses.Nodup ∧
      (execSteps [Step.addIP "1.2.3.4", Step.addIP "1.2.3.4", Step.addIP "10.0.0.0/24",
        Step.addDomain "*.example.com", Step.addDomain "*.example.com",
        Step.removeIP "1.2.3.4"] baseState)._settings.domainWhitelist.domains.Nodup :=
  whitelists_nodup_without_bulk_sets _ baseState (by decide) (by decide) (by decide)


-- ── C10 ───────────────────────────────────────────────────────────────

/-- A record accepted by fromJSON whose name has surrounding
whitespace. -/
def rPadded : MajikAPIJSON :=
  { r0 with name := " padded " }

/-- The instance fromJSON builds from rPadded. -/
def xPadded : MajikAPI :=
  { x0 with _name := " padded " }

/-- Counterexample to C10 as stated: fromJSON accepts a record whose
name field carries surrounding whitespace (the assertion only rejects
strings that are empty after trimming) and stores it untrimmed, so the
name getter and toJSON expose an untrimmed string that originated in
caller input. -/
theorem trimming_counterexample :
    fromJSON rPadded = Except.ok xPadded ∧
    xPadded._name = " padded " ∧
    ¬ xPadded._name.trimJS = xPadded._name ∧
    (toJSON xPadded).name = " padded " := by decide

/-- C10 amended: the enumerated operations do store trimmed values —
create stores the trimmed owner id and the trimmed resolved name,
rename stores the trimmed name, and addIP and addDomain store the
trimmed candidate (inserting it only when absent) — but fromJSON
stores the record string fields exactly as received, so reconstructed
instances can expose untrimmed values. -/
theorem listed_ops_store_trimmed :
    (∀ (ownerID : String) (text : Option String) (options : MajikAPICreateOptions)
        (genId genKey : String) (now : Int) (s : MajikAPI),
        create ownerID text options genId genKey now = Except.ok s →
          s._owner_id = ownerID.trimJS ∧
            s._name = (options.name.getD "Unnamed Key").trimJS) ∧
    (∀ (n : String) (s sAfter : MajikAPI),
        runStep (Step.rename n) s = (Except.ok (), sAfter) →
          sAfter._name = n.trimJS) ∧
    (∀ (ip : String) (s sAfter : MajikAPI),
        runStep (Step.addIP ip) s = (Except.ok (), sAfter) →
          sAfter._settings.ipWhitelist.addresses =
            (if s._settings.ipWhitelist.addresses.contains ip.trimJS then
              s._settings.ipWhitelist.addresses
            else s._settings.ipWhitelist.addresses ++ [ip.trimJS])) ∧
    (∀ (d : String) (s sAfter : MajikAPI),
        runStep (Step.addDomain d) s = (Except.ok (), sAfter) →
          sAfter._settings.domainWhitelist.domains =
            (if s._settings.domainWhitelist.domains.contains d.trimJS then
              s._settings.domainWhitelist.domains
            else s._settings.domainWhitelist.domains ++ [d.trimJS])) := by
  refine ⟨?_, ?_, ?_, ?_⟩
  · intro ownerID text options genId genKey now s h
    unfold create at h
    repeat' (first | split at h | (dsimp only [] at h))
    all_goals first | (cases h; exact ⟨rfl, rfl⟩) | simp_all
  · intro n s sAfter h
    simp only [runStep] at h
    repeat' split at h
    all_goals rw [Prod.mk.injEq] at h
    all_goals obtain ⟨h1, h2⟩ := h
    all_goals (subst h2; simp_all)
  · intro ip s sAfter h
    simp only [runStep] at h
    repeat' split at h
    all_goals rw [Prod.mk.injEq] at h
    all_goals obtain ⟨h1, h2⟩ := h
    all_goals (subst h2; simp_all)
  · intro d s sAfter h
    simp only [runStep] at h
    repeat' split at h
    all_goals rw [Prod.mk.injEq] at h
    all_goals obtain ⟨h1, h2⟩ := h
    all_goals (subst h2; simp_all)

/-- Witness for C10 amended at concrete padded inputs. -/
theorem listed_ops_store_trimmed_witness :
    baseState._owner_id = String.trimJS "owner" ∧
      baseState._name = String.trimJS "Unnamed Key" ∧
    (execStep (Step.rename "  renamed  ") baseState)._name =
        String.trimJS "  renamed  " ∧
    (execStep (Step.addIP " 1.2.3.4 ") baseState)._settings.ipWhitelist.addresses =
        (if baseState._settings.ipWhitelist.addresses.contains (String.trimJS " 1.2.3.4 ") then
          baseState._settings.ipWhitelist.addresses
        else baseState._settings.ipWhitelist.addresses ++ [String.trimJS " 1.2.3.4 "]) ∧
    (execStep (Step.addDomain " a.example.com ") baseState)._settings.domainWhitelist.domains =
        (if baseState._settings.domainWhitelist.domains.contains
            (String.trimJS " a.example.com ") then
          baseState._settings.domainWhitelist.domains
        else baseState._settings.domainWhitelist.domains ++
          [String.trimJS " a.example.com "]) :=
  ⟨(listed_ops_store_trimmed.1 "owner" (some "alpha") defaultCreateOptions "gid" "gkey" 0
        baseState (by decide)).1,
    (listed_ops_store_trimmed.1 "owner" (some "alpha") defaultCreateOptions "gid" "gkey" 0
        baseState (by decide)).2,
    listed_ops_store_trimmed.2.1 "  renamed  " baseState _ (by decide),
    listed_ops_store_trimmed.2.2.1 " 1.2.3.4 " baseState _ (by decide),
    listed_ops_store_trimmed.2.2.2 " a.example.com " baseState _ (by decide)⟩

-- ── C3 ────────────────────────────────────────────────────────────────

/-- The instance after rotating baseState to the new secret "beta". -/
def rotState : MajikAPI :=
  { baseState with _api_key := sha256 "beta", _raw_api_key := some "beta" }

/-- C3 divergence, evaluated at the failing input: the key created at
time 0 with secret "alpha" and later rotated to "beta" gets the new
hash, keeps id and owner, the old secret stops verifying and the new
one verifies — but the stored timestamp still holds the creation time
0: rotate assigns only the hash and the transient raw key, and the
timestamp field is read-only, while the claim (with the README and the
spec) says rotation updates the stored timestamp to the time of the
call. -/
theorem rotate_leaves_timestamp_unchanged :
    create "owner" (some "alpha") defaultCreateOptions "gid" "gkey" 0 =
        Except.ok baseState ∧
    runStep (Step.rotate (some "beta") "tok2") baseState = (Except.ok (), rotState) ∧
    rotState._timestamp = baseState._timestamp ∧
    rotState._id = baseState._id ∧
    rotState._owner_id = baseState._owner_id ∧
    ¬ rotState._api_key = baseState._api_key ∧
    verify rotState "alpha" = Except.ok false ∧
    verify rotState "beta" = Except.ok true := by decide
